import Mathlib

/-
  Verification development for the LeadEvolver repository.

  Shallow embedding of the data model and operations of the repository:
  Blackboard and PageFindings (src/data_schema), the lead classifier module
  and the two pipeline controllers (src/LeadEvolver/modules), the profile
  judge response parsing (src/LeadEvolver/judge/profiler/judge.py) and the
  classification scoring / training metric (src/LeadEvolver/judge/metrics.py).

  External effects (the dspy predictor, the research agent, the OpenAI chat
  call) are modelled as oracle function parameters; everything the repository
  computes around them is translated directly from the source.
-/

/-! ## Python string primitives used by the source -/

/-- Python whitespace test over the ASCII whitespace characters, as used by
str.strip and the regex class backslash-s in the source. -/
def pyIsSpace (c : Char) : Bool :=
  c = ' ' || c = '\t' || c = '\n' || c = '\r' || c = '\x0b' || c = '\x0c'

/-- Characters of a string with leading and trailing Python whitespace removed. -/
def pyStripChars (l : List Char) : List Char :=
  ((l.dropWhile pyIsSpace).reverse.dropWhile pyIsSpace).reverse

/-- Python str.strip() with no argument: remove leading and trailing whitespace. -/
def pyStrip (s : String) : String :=
  ⟨pyStripChars s.data⟩

/-- Python str.lower() restricted to ASCII letters, which is all the source compares. -/
def pyLower (s : String) : String :=
  ⟨s.data.map Char.toLower⟩

/-- Python truthiness of an optional string: None and the empty string are falsy. -/
def pyTruthyStrOpt : Option String → Bool
  | none => false
  | some s => s ≠ ""

/-- Python expression x or d for an optional-string x and a string default d:
yields d when x is None or empty, else the string in x. -/
def pyOrStr : Option String → String → String
  | none, d => d
  | some s, d => if s = "" then d else s

/-- Python expression a or b for two strings: b when a is empty, else a. -/
def pyOrS (a b : String) : String :=
  if a = "" then b else a

/-- Python str() rendering of an optional string, as an f-string renders it:
None prints as the four characters None. -/
def pyStr : Option String → String
  | none => "None"
  | some s => s

/-- Test whether pat occurs at the start of s. -/
def charsStartWith : List Char → List Char → Bool
  | [], _ => true
  | _ :: _, [] => false
  | p :: ps, c :: cs => p = c && charsStartWith ps cs

/-- Test whether pat occurs anywhere inside s. -/
def charsContain (pat : List Char) : List Char → Bool
  | [] => charsStartWith pat []
  | c :: cs => charsStartWith pat (c :: cs) || charsContain pat cs

/-- Substring test on strings (used to state claims about separators). -/
def strContains (s pat : String) : Bool :=
  charsContain pat.data s.data

/-! ## src/data_schema/page_findings.py -/

/-- PageFindings: the findings extracted from one scraped page
(src/data_schema/page_findings.py). -/
structure PageFindings where
  url : String
  title : String
  summary : String
  page_findings : String
  interesting_links : Option String
  current_goal : String
deriving DecidableEq

namespace PageFindings

/-- PageFindings.to_string from src/data_schema/page_findings.py line 14. -/
def to_string (p : PageFindings) : String :=
  "URL: " ++ p.url ++ "\nTitle: " ++ p.title ++ "\nSummary: " ++ p.summary ++
    "\nPage Findings: " ++ p.page_findings ++ "\nCurrent Goal: " ++ p.current_goal ++ "\n\n"

end PageFindings

/-! ## src/data_schema/blackboard.py -/

/-- Blackboard: the shared research record with two accumulated text fields
(src/data_schema/blackboard.py). -/
structure Blackboard where
  page_findings : String
  research_findings : String
deriving DecidableEq

namespace Blackboard

/-- Blackboard.to_string: renders the research-findings section, then the
page-findings section, joined by a blank line; empty sections are omitted
(src/data_schema/blackboard.py lines 24-39). -/
def to_string (b : Blackboard) : String :=
  let parts : List String :=
    (if b.research_findings ≠ "" then [("Research Summary:\n" ++ b.research_findings)] else [])
      ++ (if b.page_findings ≠ "" then [("\nPage Findings:\n" ++ b.page_findings)] else [])
  String.intercalate ("\n\n") parts

/-- Blackboard.add_page_findings: appends the canonical string of each finding
after a newline; no-op on an empty list (src/data_schema/blackboard.py lines
41-57; the dict branch constructs the same PageFindings record first, so the
typed list covers both branches). -/
def add_page_findings (b : Blackboard) (findings : List PageFindings) : Blackboard :=
  if findings.isEmpty then b
  else findings.foldl
    (fun acc f => { acc with page_findings := acc.page_findings ++ "\n" ++ f.to_string }) b

/-- Blackboard.add_research_findings: prepends the new findings before the
prior ones under a Prior Research marker; no-op on empty input
(src/data_schema/blackboard.py lines 59-73). -/
def add_research_findings (b : Blackboard) (research_findings : String) : Blackboard :=
  if research_findings = "" then b
  else if b.research_findings ≠ "" then
    { b with research_findings :=
        research_findings ++ "\n\nPrior Research:\n" ++ b.research_findings }
  else
    { b with research_findings := research_findings }

/-- Blackboard.to_dict: the flat two-key mapping
(src/data_schema/blackboard.py lines 75-85). -/
def to_dict (b : Blackboard) : List (String × String) :=
  [(("page_findings"), b.page_findings), (("research_findings"), b.research_findings)]

/-- Python dict.get(key, default) over an association-list model of a dict. -/
def pyDictGet (d : List (String × String)) (k dflt : String) : String :=
  match d.find? (fun kv => kv.1 = k) with
  | some kv => kv.2
  | none => dflt

/-- Blackboard.from_dict: total over mappings, each missing key defaults to the
empty string (src/data_schema/blackboard.py lines 87-101). -/
def from_dict (d : List (String × String)) : Blackboard :=
  { page_findings := pyDictGet d ("page_findings") ("")
    research_findings := pyDictGet d ("research_findings") ("") }

end Blackboard

/-! ## src/LeadEvolver/judge/metrics.py and judge/classifier/metrics.py -/

/-- compute_classification_score: exact match scores 1, confusion between the
two fit classes scores 1/2, any mismatch involving not_a_fit scores 0. The
same function appears verbatim in src/LeadEvolver/judge/metrics.py lines 24-52
and src/LeadEvolver/judge/classifier/metrics.py lines 57-85. -/
def compute_classification_score (predicted expected : String) : ℚ :=
  if predicted = expected then 1
  else if (predicted = "strong_fit" ∨ predicted = "weak_fit")
      ∧ (expected = "strong_fit" ∨ expected = "weak_fit") then 1/2
  else 0

/-! ## src/LeadEvolver/modules/lead_classifier_module.py -/

/-- PredictorOut: the typed output fields of the LeadClassifier dspy signature
(src/LeadEvolver/signatures/LeadClassifier.py lines 24-26); the underlying
model call is an oracle producing one of these. -/
structure PredictorOut where
  lead_quality : Option String
  rationale : Option String
  further_investigation : Option String
deriving DecidableEq

/-- StepOut: the dict returned by LeadClassifierModule.forward
(src/LeadEvolver/modules/lead_classifier_module.py lines 73-78). -/
structure StepOut where
  lead_quality : Option String
  rationale : Option String
  further_investigation : Option String
  is_final : Bool
deriving DecidableEq

namespace LeadClassifierModule

/-- LeadClassifierModule.forward given the predictor result: computes is_final
from label presence and the further-investigation text, and nulls the
further-investigation field on a final verdict
(src/LeadEvolver/modules/lead_classifier_module.py lines 62-78). -/
def forward (p : PredictorOut) : StepOut :=
  let is_final : Bool :=
    p.lead_quality.isSome &&
      (match p.further_investigation with
        | none => true
        | some fi => pyStrip fi = "" || pyLower fi = "none")
  { lead_quality := p.lead_quality
    rationale := p.rationale
    further_investigation := if is_final then none else p.further_investigation
    is_final := is_final }

/-- Parameter names of LeadClassifierModule.forward
(src/LeadEvolver/modules/lead_classifier_module.py lines 33-38): the method
accepts lead_context, ideal_customer_profile and offering only, and has no
force_classification parameter and no kwargs catch-all. -/
def forward_params : List String :=
  [("lead_context"), ("ideal_customer_profile"), ("offering")]

/-- Python keyword-argument binding check: a call binds only when every
keyword name is a declared parameter; an unexpected keyword raises TypeError. -/
def accepts_kwargs (kwargs : List String) : Bool :=
  kwargs.all (fun k => forward_params.contains k)

/-- Keyword names at the forced-final call site
self.classifier(lead_context=..., force_classification=True)
(src/LeadEvolver/modules/lead_classifier_pipeline.py lines 101-104; the same
call appears at src/LeadEvolver/modules/lead_profiler_pipeline.py lines 96-99). -/
def forced_call_kwargs : List String :=
  [("lead_context"), ("force_classification")]

/-- Python-call semantics for invoking the module (dspy.Module dispatches
keyword arguments unchanged to forward): the call succeeds only when every
keyword is accepted, otherwise it raises TypeError. -/
def call (p : PredictorOut) (kwargs : List String) : Except String StepOut :=
  if accepts_kwargs kwargs then Except.ok (forward p)
  else Except.error ("TypeError: forward() got an unexpected keyword argument")

end LeadClassifierModule

/-! ## src/LeadEvolver/modules/lead_classifier_pipeline.py -/

/-- PipeResult: the dict returned by LeadClassifierPipeline.forward, with two
instrumentation fields for verification: forced_fired records which return
site produced the record (the post-loop forced-final return or the in-loop
final return), and classifier_calls counts invocations of the classification
step. -/
structure PipeResult where
  lead_quality : Option String
  rationale : Option String
  blackboard : List (String × String)
  investigation_rounds : Nat
  forced_fired : Bool
  classifier_calls : Nat
deriving DecidableEq

namespace LeadClassifierPipeline

/-- MAX_INVESTIGATION_ROUNDS of LeadClassifierPipeline
(src/LeadEvolver/modules/lead_classifier_pipeline.py line 20). -/
def MAX_INVESTIGATION_ROUNDS : Nat := 5

/-- Initial research goal f-string
(src/LeadEvolver/modules/lead_classifier_pipeline.py lines 55-58). -/
def initial_goal (lead_url lead_username lead_name : String) : String :=
  "Find information related to whether they might be an ideal customer, by visiting only the initial url (profile page). \nLead: "
    ++ lead_username ++ "\nName: " ++ lead_name ++ "\nInitial Url: " ++ lead_url

/-- Post-loop forced-final return of LeadClassifierPipeline.forward
(src/LeadEvolver/modules/lead_classifier_pipeline.py lines 100-111): one more
classification-step call, and the returned lead_quality is the Python
expression lead_quality or the string None. The step oracle takes the call
index, the lead context and the force flag of the call site. -/
def forcedFinal (step : Nat → String → Bool → StepOut)
    (bb : Blackboard) (rounds ci : Nat) : PipeResult :=
  let f := step ci bb.to_string true
  { lead_quality := some (pyOrStr f.lead_quality ("None"))
    rationale := f.rationale
    blackboard := bb.to_dict
    investigation_rounds := rounds
    forced_fired := true
    classifier_calls := ci + 1 }

/-- Classification loop of LeadClassifierPipeline.forward
(src/LeadEvolver/modules/lead_classifier_pipeline.py lines 73-111).
Arguments thread the loop state: remaining iterations, blackboard,
investigation_rounds, next classification call index and next research call
index. A research oracle returning none models the caught exception of the
follow-up research call, which breaks the loop. -/
def loop (step : Nat → String → Bool → StepOut)
    (research : Nat → String → Blackboard → Option Blackboard) :
    Nat → Blackboard → Nat → Nat → Nat → PipeResult
  | 0, bb, rounds, ci, _ => forcedFinal step bb rounds ci
  | fuel + 1, bb, rounds, ci, ri =>
      let c := step ci bb.to_string false
      if c.is_final then
        { lead_quality := c.lead_quality
          rationale := c.rationale
          blackboard := bb.to_dict
          investigation_rounds := rounds
          forced_fired := false
          classifier_calls := ci + 1 }
      else if pyTruthyStrOpt c.further_investigation then
        match research ri (c.further_investigation.getD ("")) bb with
        | some bb2 => loop step research fuel bb2 (rounds + 1) (ci + 1) (ri + 1)
        | none => forcedFinal step bb rounds (ci + 1)
      else
        loop step research fuel bb rounds (ci + 1) ri

/-- LeadClassifierPipeline.forward
(src/LeadEvolver/modules/lead_classifier_pipeline.py lines 28-111): start from
an empty blackboard, run the initial research inside try-except (a failing
initial research keeps the empty blackboard and does not count a round), then
run the bounded classification loop followed by the forced-final return. -/
def forward (step : Nat → String → Bool → StepOut)
    (research : Nat → String → Blackboard → Option Blackboard)
    (lead_url lead_username lead_name : String) : PipeResult :=
  let blackboard : Blackboard := { page_findings := "", research_findings := "" }
  match research 0 (initial_goal lead_url lead_username lead_name) blackboard with
  | some bb2 => loop step research MAX_INVESTIGATION_ROUNDS bb2 1 0 1
  | none => loop step research MAX_INVESTIGATION_ROUNDS blackboard 0 0 1

end LeadClassifierPipeline

/-! ## src/LeadEvolver/modules/lead_evolver_pipeline.py -/

/-- ResearchOut: the dict returned by ResearcherModule.forward
(src/LeadEvolver/modules/researcher_module.py lines 98-101), as consumed by
LeadEvolverPipeline. -/
structure ResearchOut where
  updated_blackboard : String
  page_findings : List PageFindings

/-- EvolverResult: the dict returned by LeadEvolverPipeline.forward, with the
same two instrumentation fields as PipeResult. -/
structure EvolverResult where
  lead_quality : Option String
  blackboard : String
  page_findings : List PageFindings
  investigation_rounds : Nat
  rationale : String
  forced_fired : Bool
  classifier_calls : Nat

namespace LeadEvolverPipeline

/-- MAX_INVESTIGATION_ROUNDS of LeadEvolverPipeline
(src/LeadEvolver/modules/lead_evolver_pipeline.py line 20). -/
def MAX_INVESTIGATION_ROUNDS : Nat := 3

/-- Initial research goal f-string
(src/LeadEvolver/modules/lead_evolver_pipeline.py lines 59-61). -/
def initial_goal (lead_name lead_url : String) : String :=
  "Research " ++ lead_name ++ ". Start by exploring their profile at " ++ lead_url
    ++ ". Look for: their current role, technical projects, AI/ML experience, and any use of DSPy or similar frameworks."

/-- Exhaustion note appended to the context of the final classification call
(src/LeadEvolver/modules/lead_evolver_pipeline.py line 103). -/
def exhaustNote : String :=
  "\n\n[Note: Maximum investigation rounds reached. Make final classification with available information.]"

/-- Last n characters of a string, the Python slice s[-n:] under a length
guard at the call site. -/
def strTakeLast (n : Nat) (s : String) : String :=
  ⟨s.data.drop (s.data.length - n)⟩

/-- First n characters of a string, the Python slice s[:n]. -/
def strTake (n : Nat) (s : String) : String :=
  ⟨s.data.take n⟩

/-- LeadEvolverPipeline._extract_rationale
(src/LeadEvolver/modules/lead_evolver_pipeline.py lines 116-127); the
lead_quality argument is rendered by the f-string, printing None when absent. -/
def extract_rationale (blackboard : String) (lead_quality : Option String) : String :=
  if blackboard = "" then
    "Classified as " ++ pyStr lead_quality ++ " based on limited information."
  else
    let context_hint := if blackboard.length > 500 then strTakeLast 500 blackboard else blackboard
    "Classified as " ++ pyStr lead_quality
      ++ " based on research findings. Key context: " ++ strTake 200 context_hint ++ "..."

/-- Classification loop of LeadEvolverPipeline.forward
(src/LeadEvolver/modules/lead_evolver_pipeline.py lines 72-114). The step
oracle takes the call index and the lead context; the ideal-customer-profile
and offering inputs are passed through to the step unchanged and are absorbed
by the oracle. Research calls here are not wrapped in try-except in the
source, so the research oracle is total. On exhaustion the final call runs on
the context annotated with the exhaustion note and the returned lead_quality
is the Python expression lead_quality or not_a_fit. -/
def loop (step : Nat → String → StepOut)
    (research : Nat → String → String → ResearchOut) :
    Nat → String → List PageFindings → Nat → Nat → Nat → EvolverResult
  | 0, bb, pfs, rounds, ci, _ =>
      let f := step ci (bb ++ exhaustNote)
      { lead_quality := some (pyOrStr f.lead_quality ("not_a_fit"))
        blackboard := bb
        page_findings := pfs
        investigation_rounds := rounds
        rationale := extract_rationale bb f.lead_quality
        forced_fired := true
        classifier_calls := ci + 1 }
  | fuel + 1, bb, pfs, rounds, ci, ri =>
      let c := step ci bb
      if c.is_final then
        { lead_quality := c.lead_quality
          blackboard := bb
          page_findings := pfs
          investigation_rounds := rounds
          rationale := extract_rationale bb c.lead_quality
          forced_fired := false
          classifier_calls := ci + 1 }
      else if pyTruthyStrOpt c.further_investigation then
        let r := research ri (c.further_investigation.getD ("")) bb
        loop step research fuel r.updated_blackboard (pfs ++ r.page_findings)
          (rounds + 1) (ci + 1) (ri + 1)
      else
        loop step research fuel bb pfs rounds (ci + 1) ri

/-- LeadEvolverPipeline.forward
(src/LeadEvolver/modules/lead_evolver_pipeline.py lines 27-114): seed the
string blackboard with initial_context or the empty string, run the initial
research unconditionally, then the bounded loop with the forced-final
fallback. -/
def forward (step : Nat → String → StepOut)
    (research : Nat → String → String → ResearchOut)
    (lead_name lead_url initial_context : String) : EvolverResult :=
  let blackboard := pyOrS initial_context ""
  let r := research 0 (initial_goal lead_name lead_url) blackboard
  loop step research MAX_INVESTIGATION_ROUNDS r.updated_blackboard r.page_findings 1 0 1

end LeadEvolverPipeline

/-! ## src/LeadEvolver/judge/profiler/judge.py -/

/-- Numeric value of a run of decimal digit characters, the Python
int() conversion of a regex digit group. -/
def digitsToNat (ds : List Char) : Nat :=
  ds.foldl (fun n c => 10 * n + (c.toNat - ('0').toNat)) 0

/-- Greedy maximal run of decimal digits at the head of the input, with the
rest; the regex atom of one-or-more digits (which backtracking never shortens
in the patterns of the source, as argued case by case below). -/
def takeDigits : List Char → List Char × List Char
  | [] => ([], [])
  | c :: cs =>
      if c.isDigit then
        let r := takeDigits cs
        (c :: r.1, r.2)
      else ([], c :: cs)

/-- Greedy run of whitespace, the regex atom backslash-s-star. -/
def skipSpaces (l : List Char) : List Char :=
  l.dropWhile pyIsSpace

/-- Case-insensitive literal match at the head of the input, returning the
rest on success; models a literal under the IGNORECASE flag. -/
def matchCI : List Char → List Char → Option (List Char)
  | [], s => some s
  | _ :: _, [] => none
  | p :: ps, c :: cs => if p.toLower = c.toLower then matchCI ps cs else none

/-- Match of the pattern TOTAL: backslash-s-star digits backslash-s-star slash
backslash-s-star 100 (IGNORECASE) anchored at the head of the input, returning
the digit group. Greedy matching is complete here: digits, whitespace and the
literal slash are pairwise disjoint character classes, so the regex engine
never needs to backtrack. -/
def matchTotalAt (s : List Char) : Option Nat :=
  (matchCI ("TOTAL:").data s).bind fun r1 =>
    let d := takeDigits (skipSpaces r1)
    if d.1.isEmpty then none
    else
      match skipSpaces d.2 with
      | '/' :: r5 => (matchCI ("100").data (skipSpaces r5)).map fun _ => digitsToNat d.1
      | _ => none

/-- Match of the pattern digits backslash-s-star slash backslash-s-star 100
anchored at the head of the input, returning the digit group. -/
def matchFracAt (s : List Char) : Option Nat :=
  let d := takeDigits s
  if d.1.isEmpty then none
  else
    match skipSpaces d.2 with
    | '/' :: r3 => (matchCI ("100").data (skipSpaces r3)).map fun _ => digitsToNat d.1
    | _ => none

/-- Match of the pattern digits backslash-s-star end-of-string anchored at the
head of the input (the Python dollar anchor also matches before one trailing
newline, which the whitespace star already consumes). -/
def matchEndAt (s : List Char) : Option Nat :=
  let d := takeDigits s
  if d.1.isEmpty then none
  else if (skipSpaces d.2).isEmpty then some (digitsToNat d.1) else none

/-- re.search: try the anchored matcher at every start position from the left
and return the first success. -/
def scanFirst (m : List Char → Option Nat) : List Char → Option Nat
  | [] => m []
  | c :: cs =>
      match m (c :: cs) with
      | some n => some n
      | none => scanFirst m cs

namespace ProfileJudge

/-- ProfileJudge._parse_score
(src/LeadEvolver/judge/profiler/judge.py lines 93-121): an explicit
TOTAL: N/100 pattern first, then any N/100 pattern, then a bare trailing
integer accepted only inside the range 0..100, then the default 50. The two
clamped branches mirror min(100, max(0, int(group))). -/
def parse_score (response : String) : Nat :=
  match scanFirst matchTotalAt response.data with
  | some n => min 100 (max 0 n)
  | none =>
    match scanFirst matchFracAt response.data with
    | some n => min 100 (max 0 n)
    | none =>
      match scanFirst matchEndAt response.data with
      | some n => if n ≤ 100 then n else 50
      | none => 50

/-- Category list of ProfileJudge._parse_breakdown
(src/LeadEvolver/judge/profiler/judge.py line 134). -/
def categories : List String :=
  [("ACCURACY"), ("SUCCINCT"), ("RELEVANT"), ("COMPLETE"), ("CONTACT"), ("PERSONA")]

/-- Category maxima of ProfileJudge._parse_breakdown
(src/LeadEvolver/judge/profiler/judge.py line 135). -/
def max_score (category : String) : Nat :=
  if category = "ACCURACY" then 60 else 10

/-- Match of the per-category pattern CATEGORY: backslash-s-star digits
backslash-s-star slash backslash-s-star digits (IGNORECASE) anchored at the
head of the input, returning the first digit group. -/
def matchCatAt (cat : List Char) (s : List Char) : Option Nat :=
  (matchCI (cat ++ [':']) s).bind fun r1 =>
    let d := takeDigits (skipSpaces r1)
    if d.1.isEmpty then none
    else
      match skipSpaces d.2 with
      | '/' :: r5 =>
          let d2 := takeDigits (skipSpaces r5)
          if d2.1.isEmpty then none else some (digitsToNat d.1)
      | _ => none

/-- ProfileJudge._parse_breakdown
(src/LeadEvolver/judge/profiler/judge.py lines 123-146): each category score
is clamped to its maximum and defaults to 0 when unparsable; keys are the
lowercased category names. -/
def parse_breakdown (response : String) : List (String × Nat) :=
  categories.map fun cat =>
    (pyLower cat,
      match scanFirst (matchCatAt cat.data) response.data with
      | some n => min (max_score cat) (max 0 n)
      | none => 0)

/-- User prompt of ProfileJudge._build_user_prompt
(src/LeadEvolver/judge/profiler/judge.py lines 73-91). -/
def build_user_prompt (profile blackboard : String) : String :=
  let profile_length : Nat := if profile ≠ "" then profile.length else 0
  "Evaluate the following profile:\n\n## Research on the Lead (Blackboard):\n"
    ++ blackboard ++ "\n\n## Profile to Evaluate:\n" ++ profile
    ++ "\n\nTotal Characters in profile: " ++ toString profile_length
    ++ "\n\nScore this profile based on the rubric."

/-- JudgeRun: the score of ProfileJudge.judge together with an instrumentation
flag recording whether the chat-completion call was dispatched. -/
structure JudgeRun where
  total : Nat
  dispatched : Bool
deriving DecidableEq

/-- ProfileJudge.judge (src/LeadEvolver/judge/profiler/judge.py lines
148-180): returns 0 without a model call when the profile is empty or its
stripped length is under 10; otherwise dispatches one chat completion and
parses the stripped response. The model oracle maps the user prompt to the
response content; the system prompt is a run constant built from the rubric
data and does not affect the properties stated here. -/
def judge (model : String → String) (profile blackboard : String) : JudgeRun :=
  if profile = "" ∨ (pyStrip profile).length < 10 then
    { total := 0, dispatched := false }
  else
    let raw_response := pyStrip (model (build_user_prompt profile blackboard))
    { total := parse_score raw_response, dispatched := true }

/-- BreakdownRun: the record returned by ProfileJudge.judge_with_breakdown plus
the dispatch instrumentation flag. -/
structure BreakdownRun where
  total : Nat
  breakdown : List (String × Nat)
  raw_response : String
  dispatched : Bool
deriving DecidableEq

/-- ProfileJudge.judge_with_breakdown
(src/LeadEvolver/judge/profiler/judge.py lines 182-229): the same
short-circuit returns total 0 with an all-zero breakdown and no model call. -/
def judge_with_breakdown (model : String → String) (profile blackboard : String) :
    BreakdownRun :=
  if profile = "" ∨ (pyStrip profile).length < 10 then
    { total := 0
      breakdown :=
        [(("accuracy"), 0), (("succinct"), 0), (("relevant"), 0),
         (("complete"), 0), (("contact"), 0), (("persona"), 0)]
      raw_response := "Profile is empty or too short"
      dispatched := false }
  else
    let raw := pyStrip (model (build_user_prompt profile blackboard))
    { total := parse_score raw
      breakdown := parse_breakdown raw
      raw_response := raw
      dispatched := true }

end ProfileJudge

/-- Count of non-whitespace characters of a string; this formalizes the
predicate named by the short-circuit claim (fewer than 10 non-whitespace
characters), to be compared with the condition the source actually tests. -/
def nonWhitespaceCount (s : String) : Nat :=
  (s.data.filter (fun c => !pyIsSpace c)).length

/-! ## src/LeadEvolver/judge/metrics.py training_metric -/

/-- TrainingPrediction: the fields training_metric reads from a prediction;
the hasattr, dict and getattr branches of the source all reduce to optional
field access with the defaults shown in training_metric below. -/
structure TrainingPrediction where
  blackboard : Option String
  lead_quality : Option String
  rationale : Option String
deriving DecidableEq

/-- TrainingExample: the one field training_metric reads from an example. -/
structure TrainingExample where
  context : Option String
deriving DecidableEq

/-- TrainingMetricRun: the score of training_metric together with the
arguments of the judge.judge call when one was made (none when the metric
short-circuits before invoking the judge). -/
structure TrainingMetricRun where
  score : ℚ
  judge_call : Option (String × String × Option String)
deriving DecidableEq

/-- training_metric (src/LeadEvolver/judge/metrics.py lines 55-119): reads the
blackboard of the prediction defaulting to the empty string, falls back to the
context of the example when that is empty, returns 0.0 before any judge call
when the predicted label is missing or the resulting context is empty, and
otherwise scores the predicted label against the judge opinion. The judge
oracle maps (lead_context, proposed_classification, proposed_rationale) to the
judge label; get_judge() only constructs the judge object and performs no
model call, so the short-circuit paths dispatch nothing. -/
def training_metric (judge : String → String → Option String → String)
    (ex : TrainingExample) (prediction : TrainingPrediction) : TrainingMetricRun :=
  let lead_context := prediction.blackboard.getD ""
  let lead_context :=
    if lead_context = "" then
      match ex.context with
      | some c => c
      | none => lead_context
    else lead_context
  match prediction.lead_quality with
  | none => { score := 0, judge_call := none }
  | some predicted =>
      if lead_context = "" then { score := 0, judge_call := none }
      else
        let rationale := prediction.rationale
        let judge_classification := judge lead_context predicted rationale
        { score := compute_classification_score predicted judge_classification
          judge_call := some (lead_context, predicted, rationale) }

/-! ## Concrete stubs and claim-side vocabulary used by the theorems below -/

/-- Well-formed classifier label: the optional Literal output type of the
LeadClassifier signature (src/LeadEvolver/signatures/LeadClassifier.py line
24) admits exactly the three labels or None. -/
def labelOk (l : Option String) : Prop :=
  l = none ∨ l = some ("strong_fit") ∨ l = some ("weak_fit") ∨ l = some ("not_a_fit")

/-- Stub classification step for the classifier pipeline: always non-final, a
null label and a non-empty further-investigation goal, for any call index,
context and force flag. -/
def alwaysInvestigateStep : Nat → String → Bool → StepOut :=
  fun _ _ _ =>
    { lead_quality := none
      rationale := none
      further_investigation := some ("Investigate the GitHub repositories")
      is_final := false }

/-- Stub research step for the classifier pipeline: always succeeds and
returns the blackboard unchanged. -/
def idResearch : Nat → String → Blackboard → Option Blackboard :=
  fun _ _ b => some b

/-- Stub classification step for the evolver pipeline: always non-final with a
null label and a non-empty further-investigation goal. -/
def alwaysInvestigateStepE : Nat → String → StepOut :=
  fun _ _ =>
    { lead_quality := none
      rationale := none
      further_investigation := some ("Check the blog")
      is_final := false }

/-- Stub research step for the evolver pipeline: returns the blackboard
unchanged with no page findings. -/
def idResearchE : Nat → String → String → ResearchOut :=
  fun _ _ b => { updated_blackboard := b, page_findings := [] }

/-- Concrete page findings whose canonical text contains the letter Y, used to
exercise the blackboard page-merge. -/
def pfY : PageFindings :=
  { url := "https://example.org/y"
    title := "Y"
    summary := "Y page"
    page_findings := "Y"
    interesting_links := none
    current_goal := "g" }

/-- Stub model oracle whose response carries an explicit total. -/
def shortModel : String → String :=
  fun _ => "TOTAL: 90/100"

/-- Stub classification judge oracle with a constant opinion. -/
def constJudge : String → String → Option String → String :=
  fun _ _ _ => "strong_fit"

/-! ## Theorems -/

/-- C3: a Classification Step output is final exactly when the label is
non-null and the further-investigation text is null, empty after trimming
whitespace, or the literal none compared case-insensitively; and a final
output carries a null further-investigation field. -/
theorem C3_finality_invariant (p : PredictorOut) :
    ((LeadClassifierModule.forward p).is_final = true ↔
      (p.lead_quality ≠ none ∧
        (p.further_investigation = none ∨
          ∃ fi, p.further_investigation = some fi ∧ (pyStrip fi = "" ∨ pyLower fi = "none"))))
    ∧ ((LeadClassifierModule.forward p).is_final = true →
        (LeadClassifierModule.forward p).further_investigation = none) := by
  constructor
  · unfold LeadClassifierModule.forward
    cases hl : p.lead_quality with
    | none =>
      cases hf : p.further_investigation <;>
        simp [hl, hf, Option.isSome]
    | some q =>
      cases hf : p.further_investigation with
      | none => simp [hl, hf, Option.isSome]
      | some fi =>
        simp only [hl, hf, Option.isSome, Bool.true_and]
        constructor
        · intro h
          refine ⟨by simp, Or.inr ⟨fi, rfl, ?_⟩⟩
          rcases Bool.or_eq_true_iff.mp h with h1 | h1
          · exact Or.inl (by simpa using h1)
          · exact Or.inr (by simpa using h1)
        · rintro ⟨-, h | ⟨fi2, hfi2, h⟩⟩
          · exact absurd h (by simp)
          · cases hfi2
            rcases h with h | h <;> simp [h]
  · intro h
    unfold LeadClassifierModule.forward at h ⊢
    simp only [h]
    split
    · rfl
    · simp_all

/-- C3 witness: a concrete predictor output with a present label and the
further-investigation text None is classified final with a nulled
further-investigation field. -/
theorem C3_witness :
    (LeadClassifierModule.forward ⟨some ("strong_fit"), none, some ("None")⟩).is_final = true
    ∧ (LeadClassifierModule.forward ⟨some ("strong_fit"), none, some ("None")⟩).further_investigation
        = none := by
  have h := C3_finality_invariant ⟨some ("strong_fit"), none, some ("None")⟩
  have hf : (LeadClassifierModule.forward ⟨some ("strong_fit"), none, some ("None")⟩).is_final = true :=
    h.1.mpr ⟨by decide, Or.inr ⟨"None", rfl, Or.inr (by decide)⟩⟩
  exact ⟨hf, h.2 hf⟩

/-- C4 counterexample: adding page findings containing Y to a blackboard whose
page findings are X yields X before the new block, but the separator written
between them is a single newline; the string between the two is never the
claimed dashed separator, which does not occur in the result at all. -/
theorem C4_counterexample :
    strContains ((Blackboard.mk ("X") ("A")).add_page_findings [pfY]).page_findings ("\n\n---\n\n")
      = false
    ∧ strContains ((Blackboard.mk ("X") ("A")).add_page_findings [pfY]).page_findings ("Y") = true := by
  decide

/-- C4 amended: on a blackboard already holding research findings A and page
findings X, add_research_findings B yields exactly B, then the Prior Research
marker, then A (newest first); adding page findings whose text contains Y
yields X, then a single newline, then the new page block (oldest first, each
block ending in a blank line, with no dashed separator); both operations are
no-ops on empty input and only ever extend the existing content. -/
theorem C4_blackboard_merge_amended :
    (∀ (b : Blackboard) (new : String), new ≠ "" → b.research_findings ≠ "" →
      (b.add_research_findings new).research_findings
        = new ++ "\n\nPrior Research:\n" ++ b.research_findings)
    ∧ (∀ (b : Blackboard) (f : PageFindings),
      (b.add_page_findings [f]).page_findings = b.page_findings ++ "\n" ++ f.to_string)
    ∧ (∀ b : Blackboard, b.add_research_findings ("") = b)
    ∧ (∀ b : Blackboard, b.add_page_findings [] = b)
    ∧ ((Blackboard.mk ("X") ("A")).add_research_findings ("B")).research_findings
        = "B\n\nPrior Research:\nA"
    ∧ ((Blackboard.mk ("X") ("A")).add_page_findings [pfY]).page_findings = "X\n" ++ pfY.to_string := by
  refine ⟨?_, ?_, ?_, ?_, by decide, by decide⟩
  · intro b new hnew hold
    unfold Blackboard.add_research_findings
    rw [if_neg hnew, if_pos hold]
  · intro b f
    rfl
  · intro b
    unfold Blackboard.add_research_findings
    rw [if_pos rfl]
  · intro b
    rfl

/-- C4 witness: the amended merge-order statement applied to the concrete
blackboard of the claim, with both non-emptiness hypotheses discharged. -/
theorem C4_witness :
    ((Blackboard.mk ("X") ("A")).add_research_findings ("B")).research_findings
      = "B" ++ "\n\nPrior Research:\n" ++ "A" :=
  C4_blackboard_merge_amended.1 (Blackboard.mk ("X") ("A")) ("B") (by decide) (by decide)

/-- C5: serializing a blackboard and loading it back renders the identical
canonical string, and from_dict defaults each missing key to the empty
string, staying total over arbitrary mappings. -/
theorem C5_roundtrip_and_defaults :
    (∀ b : Blackboard, (Blackboard.from_dict (Blackboard.to_dict b)).to_string = b.to_string)
    ∧ (∀ d : List (String × String), d.find? (fun kv => kv.1 = "page_findings") = none →
        (Blackboard.from_dict d).page_findings = "")
    ∧ (∀ d : List (String × String), d.find? (fun kv => kv.1 = "research_findings") = none →
        (Blackboard.from_dict d).research_findings = "") := by
  refine ⟨?_, ?_, ?_⟩
  · intro b
    rfl
  · intro d h
    unfold Blackboard.from_dict Blackboard.pyDictGet
    rw [h]
  · intro d h
    unfold Blackboard.from_dict Blackboard.pyDictGet
    rw [h]

/-- C5 witness: the round-trip and the missing-key defaults at concrete
inputs, the defaults at the empty mapping. -/
theorem C5_witness :
    (Blackboard.from_dict (Blackboard.to_dict (Blackboard.mk ("p") ("r")))).to_string
      = (Blackboard.mk ("p") ("r")).to_string
    ∧ (Blackboard.from_dict []).page_findings = ""
    ∧ (Blackboard.from_dict []).research_findings = "" :=
  ⟨C5_roundtrip_and_defaults.1 (Blackboard.mk ("p") ("r")),
   C5_roundtrip_and_defaults.2.1 [] rfl,
   C5_roundtrip_and_defaults.2.2 [] rfl⟩

/-- C6: the classification scoring function satisfies the exhaustive nine-case
table over the three labels: 1 on the diagonal, 1/2 between the two distinct
fit classes, 0 on every mismatch involving not_a_fit. -/
theorem C6_score_table :
    compute_classification_score ("strong_fit") ("strong_fit") = 1
    ∧ compute_classification_score ("weak_fit") ("weak_fit") = 1
    ∧ compute_classification_score ("not_a_fit") ("not_a_fit") = 1
    ∧ compute_classification_score ("strong_fit") ("weak_fit") = 1/2
    ∧ compute_classification_score ("weak_fit") ("strong_fit") = 1/2
    ∧ compute_classification_score ("strong_fit") ("not_a_fit") = 0
    ∧ compute_classification_score ("not_a_fit") ("strong_fit") = 0
    ∧ compute_classification_score ("weak_fit") ("not_a_fit") = 0
    ∧ compute_classification_score ("not_a_fit") ("weak_fit") = 0 := by
  refine ⟨?_, ?_, ?_, ?_, ?_, ?_, ?_, ?_, ?_⟩ <;> rfl

/-- C7: the forced-final call site passes the keyword force_classification,
but the Classification Step method accepts only lead_context,
ideal_customer_profile and offering; Python keyword binding therefore raises
TypeError on the forced call instead of forcing further_investigation to null,
while the plain in-loop call binds fine. The force_classification input field
declared in the LeadClassifier signature is never accepted or forwarded by the
module. -/
theorem C7_force_final_call_rejected :
    LeadClassifierModule.accepts_kwargs LeadClassifierModule.forced_call_kwargs = false
    ∧ LeadClassifierModule.call ⟨none, none, none⟩ LeadClassifierModule.forced_call_kwargs
        = Except.error ("TypeError: forward() got an unexpected keyword argument")
    ∧ LeadClassifierModule.accepts_kwargs [("lead_context")] = true :=
  ⟨rfl, rfl, rfl⟩

/-- C8 counterexample: the profile of six letters separated by single spaces
has six non-whitespace characters, fewer than ten, yet the judge dispatches a
model call on it and returns the parsed model score rather than zero, because
the source tests the length after stripping only leading and trailing
whitespace. -/
theorem C8_counterexample :
    nonWhitespaceCount ("a a a a a a") < 10
    ∧ (ProfileJudge.judge shortModel ("a a a a a a") ("")).dispatched = true
    ∧ (ProfileJudge.judge shortModel ("a a a a a a") ("")).total = 90 := by
  refine ⟨by decide, rfl, rfl⟩

/-- C8 amended: for every profile that is empty or whose length after
stripping leading and trailing whitespace is below ten, judge returns total 0
and judge_with_breakdown returns total 0 with an all-zero category breakdown,
in both cases without dispatching any call to the underlying model. -/
theorem C8_short_circuit_amended
    (model : String → String) (profile blackboard : String)
    (h : profile = "" ∨ (pyStrip profile).length < 10) :
    ProfileJudge.judge model profile blackboard = { total := 0, dispatched := false }
    ∧ ProfileJudge.judge_with_breakdown model profile blackboard
      = { total := 0
          breakdown :=
            [(("accuracy"), 0), (("succinct"), 0), (("relevant"), 0),
             (("complete"), 0), (("contact"), 0), (("persona"), 0)]
          raw_response := "Profile is empty or too short"
          dispatched := false } := by
  constructor
  · unfold ProfileJudge.judge
    rw [if_pos h]
  · unfold ProfileJudge.judge_with_breakdown
    rw [if_pos h]

/-- C8 witness: the short-circuit applied at a concrete four-letter profile. -/
theorem C8_witness :
    ProfileJudge.judge shortModel ("tiny") ("board") = { total := 0, dispatched := false }
    ∧ ProfileJudge.judge_with_breakdown shortModel ("tiny") ("board")
      = { total := 0
          breakdown :=
            [(("accuracy"), 0), (("succinct"), 0), (("relevant"), 0),
             (("complete"), 0), (("contact"), 0), (("persona"), 0)]
          raw_response := "Profile is empty or too short"
          dispatched := false } :=
  C8_short_circuit_amended shortModel ("tiny") ("board") (Or.inr (by decide))

/-- C9: the total-score parser honors the tier order of the source. An
explicit TOTAL pattern wins over an earlier plain fraction and a trailing
integer; a plain fraction wins over a trailing integer; a trailing bare
integer is used next; unparsable text defaults to 50; an out-of-range
explicit total clamps to 100; and every result lies in the range 0..100
(scores are naturals, so the lower bound holds by type). -/
theorem C9_parse_score_policy :
    ProfileJudge.parse_score ("The writing earns 40/100 from me.\nTOTAL: 87/100\nFinal note 3") = 87
    ∧ ProfileJudge.parse_score ("Overall rating 62/100 with minor issues noted 9") = 62
    ∧ ProfileJudge.parse_score ("The final score is 73") = 73
    ∧ ProfileJudge.parse_score ("I could not evaluate this profile at all.") = 50
    ∧ ProfileJudge.parse_score ("TOTAL: 150/100") = 100
    ∧ (∀ r : String, ProfileJudge.parse_score r ≤ 100) := by
  refine ⟨rfl, rfl, rfl, rfl, rfl, ?_⟩
  intro r
  unfold ProfileJudge.parse_score
  cases htot : scanFirst matchTotalAt r.data with
  | some n => exact Nat.min_le_left 100 (max 0 n)
  | none =>
    cases hfrac : scanFirst matchFracAt r.data with
    | some n => exact Nat.min_le_left 100 (max 0 n)
    | none =>
      cases hend : scanFirst matchEndAt r.data with
      | some n =>
        show (if n ≤ 100 then n else 50) ≤ 100
        split <;> omega
      | none => show (50 : Nat) ≤ 100; omega

/-- C10: when the blackboard field of a prediction is absent or empty, the
training metric uses the context field of the example as the lead context; if
the predicted label is missing or that resulting context is still empty, the
metric returns score 0 with no judge invocation (and, being a total function,
without raising); otherwise the judge receives exactly the fallback context. -/
theorem C10_training_metric_fallback
    (judge : String → String → Option String → String)
    (ex : TrainingExample) (pred : TrainingPrediction)
    (hbb : pred.blackboard = none ∨ pred.blackboard = some ("")) :
    ((pred.lead_quality = none ∨ ex.context.getD "" = "") →
      training_metric judge ex pred = { score := 0, judge_call := none })
    ∧ (∀ p c, pred.lead_quality = some p → ex.context = some c → c ≠ "" →
        (training_metric judge ex pred).judge_call = some (c, p, pred.rationale)) := by
  have hget : pred.blackboard.getD "" = "" := by
    rcases hbb with h | h <;> simp [h]
  constructor
  · intro hsc
    unfold training_metric
    rw [hget]
    cases hlq : pred.lead_quality with
    | none => simp
    | some p =>
      rcases hsc with h | h
      · exact absurd hlq (h ▸ by simp)
      · cases hctx : ex.context with
        | none => simp
        | some c =>
          have hc : c = "" := by simpa [hctx] using h
          simp [hc]
  · intro p c hp hc hcne
    unfold training_metric
    rw [hget, hp, hc]
    simp [hcne]

/-- C10 witness: the guard and the fallback at concrete inputs; an empty
blackboard with a missing label scores 0 without a judge call, and an absent
blackboard with a label and a non-empty example context sends that context to
the judge. -/
theorem C10_witness :
    training_metric constJudge ⟨some ("ctx")⟩ ⟨some (""), none, none⟩
      = { score := 0, judge_call := none }
    ∧ (training_metric constJudge ⟨some ("ctx info")⟩ ⟨none, some ("strong_fit"), none⟩).judge_call
      = some (("ctx info"), ("strong_fit"), none) :=
  ⟨(C10_training_metric_fallback constJudge ⟨some ("ctx")⟩ ⟨some (""), none, none⟩
      (Or.inr rfl)).1 (Or.inl rfl),
   (C10_training_metric_fallback constJudge ⟨some ("ctx info")⟩ ⟨none, some ("strong_fit"), none⟩
      (Or.inl rfl)).2 ("strong_fit") ("ctx info") rfl rfl (by decide)⟩

/-- Helper: any value a well-formed label can take after the Python
or-with-None fallback of the classifier pipeline. -/
theorem pyOrStr_label_none (l : Option String) (h : labelOk l) :
    pyOrStr l ("None") = "strong_fit" ∨ pyOrStr l ("None") = "weak_fit"
    ∨ pyOrStr l ("None") = "not_a_fit" ∨ pyOrStr l ("None") = "None" := by
  rcases h with h | h | h | h <;> subst h <;> simp [pyOrStr]

/-- Helper: any value a well-formed label can take after the Python
or-with-not_a_fit fallback of the evolver pipeline. -/
theorem pyOrStr_label_nf (l : Option String) (h : labelOk l) :
    pyOrStr l ("not_a_fit") = "strong_fit" ∨ pyOrStr l ("not_a_fit") = "weak_fit"
    ∨ pyOrStr l ("not_a_fit") = "not_a_fit" := by
  rcases h with h | h | h | h <;> subst h <;> simp [pyOrStr]

/-- Helper: every classifier-pipeline run that reaches the post-loop return
site (budget exhausted or early break) carries the lead quality of one
forced-final classification call, null defaulted to the string None. -/
theorem classifierLoop_forced_label
    (step : Nat → String → Bool → StepOut)
    (research : Nat → String → Blackboard → Option Blackboard) :
    ∀ (fuel : Nat) (bb : Blackboard) (rounds ci ri : Nat),
      (LeadClassifierPipeline.loop step research fuel bb rounds ci ri).forced_fired = true →
      ∃ i s, (LeadClassifierPipeline.loop step research fuel bb rounds ci ri).lead_quality
        = some (pyOrStr ((step i s true).lead_quality) ("None")) := by
  intro fuel
  induction fuel with
  | zero =>
    intro bb rounds ci ri _
    exact ⟨ci, bb.to_string, rfl⟩
  | succ n ih =>
    intro bb rounds ci ri h
    unfold LeadClassifierPipeline.loop at h ⊢
    cases hfin : (step ci bb.to_string false).is_final with
    | true => simp [hfin] at h
    | false =>
      simp only [hfin, Bool.false_eq_true, if_false] at h ⊢
      cases htru : pyTruthyStrOpt ((step ci bb.to_string false).further_investigation) with
      | true =>
        simp only [htru, if_true] at h ⊢
        cases hres : research ri (((step ci bb.to_string false).further_investigation).getD "") bb with
        | some bb2 =>
          rw [hres] at h
          exact ih bb2 (rounds + 1) (ci + 1) (ri + 1) h
        | none =>
          exact ⟨ci + 1, bb.to_string, rfl⟩
      | false =>
        simp only [htru, Bool.false_eq_true, if_false] at h ⊢
        exact ih bb rounds (ci + 1) ri h

/-- Helper: under a stub classification step that is never final and always
carries a non-empty research goal and a stub research step that always
succeeds, the classifier-pipeline loop performs one classification call per
remaining round plus the forced-final call, and ends at the forced return
site with a non-null lead quality. -/
theorem classifierLoop_stub_run
    (step : Nat → String → Bool → StepOut)
    (research : Nat → String → Blackboard → Option Blackboard)
    (hfin : ∀ i s f, (step i s f).is_final = false)
    (hfur : ∀ i s f, ∃ g, (step i s f).further_investigation = some g ∧ g ≠ "")
    (hres : ∀ j g b, ∃ b2, research j g b = some b2) :
    ∀ (fuel : Nat) (bb : Blackboard) (rounds ci ri : Nat),
      (LeadClassifierPipeline.loop step research fuel bb rounds ci ri).classifier_calls
          = ci + fuel + 1
      ∧ (LeadClassifierPipeline.loop step research fuel bb rounds ci ri).forced_fired = true
      ∧ (LeadClassifierPipeline.loop step research fuel bb rounds ci ri).lead_quality ≠ none := by
  intro fuel
  induction fuel with
  | zero =>
    intro bb rounds ci ri
    exact ⟨rfl, rfl, by simp [LeadClassifierPipeline.loop, LeadClassifierPipeline.forcedFinal]⟩
  | succ n ih =>
    intro bb rounds ci ri
    obtain ⟨g, hg, hgne⟩ := hfur ci bb.to_string false
    have htru : pyTruthyStrOpt ((step ci bb.to_string false).further_investigation) = true := by
      rw [hg]
      simpa [pyTruthyStrOpt] using hgne
    obtain ⟨bb2, hbb2⟩ := hres ri (((step ci bb.to_string false).further_investigation).getD "") bb
    unfold LeadClassifierPipeline.loop
    simp only [hfin ci bb.to_string false, Bool.false_eq_true, if_false, htru, if_true, hbb2]
    refine ⟨?_, (ih bb2 (rounds + 1) (ci + 1) (ri + 1)).2.1,
      (ih bb2 (rounds + 1) (ci + 1) (ri + 1)).2.2⟩
    rw [(ih bb2 (rounds + 1) (ci + 1) (ri + 1)).1]
    omega

/-- Helper: every evolver-pipeline run that reaches the post-loop return site
carries the lead quality of one final annotated classification call, null
defaulted to not_a_fit. -/
theorem evolverLoop_forced_label
    (step : Nat → String → StepOut)
    (research : Nat → String → String → ResearchOut) :
    ∀ (fuel : Nat) (bb : String) (pfs : List PageFindings) (rounds ci ri : Nat),
      (LeadEvolverPipeline.loop step research fuel bb pfs rounds ci ri).forced_fired = true →
      ∃ i s, (LeadEvolverPipeline.loop step research fuel bb pfs rounds ci ri).lead_quality
        = some (pyOrStr ((step i s).lead_quality) ("not_a_fit")) := by
  intro fuel
  induction fuel with
  | zero =>
    intro bb pfs rounds ci ri _
    exact ⟨ci, bb ++ LeadEvolverPipeline.exhaustNote, rfl⟩
  | succ n ih =>
    intro bb pfs rounds ci ri h
    unfold LeadEvolverPipeline.loop at h ⊢
    cases hfin : (step ci bb).is_final with
    | true => simp [hfin] at h
    | false =>
      simp only [hfin, Bool.false_eq_true, if_false] at h ⊢
      cases htru : pyTruthyStrOpt ((step ci bb).further_investigation) with
      | true =>
        simp only [htru, if_true] at h ⊢
        exact ih _ _ _ _ _ h
      | false =>
        simp only [htru, Bool.false_eq_true, if_false] at h ⊢
        exact ih bb pfs rounds (ci + 1) ri h

/-- C1 counterexample: with a classification step that always returns a
non-final null-label verdict with a research goal and research that always
succeeds, the classifier-pipeline run exhausts its budget, reaches the forced
return site, and returns the string None as its lead quality, which is none of
the three labels; the policy default not_a_fit of the claim is not what this
controller substitutes. -/
theorem C1_counterexample :
    (LeadClassifierPipeline.forward alwaysInvestigateStep idResearch
        ("https://github.com/u") ("u") ("U")).forced_fired = true
    ∧ (LeadClassifierPipeline.forward alwaysInvestigateStep idResearch
        ("https://github.com/u") ("u") ("U")).lead_quality = some ("None")
    ∧ ¬ ((LeadClassifierPipeline.forward alwaysInvestigateStep idResearch
          ("https://github.com/u") ("u") ("U")).lead_quality = some ("strong_fit")
        ∨ (LeadClassifierPipeline.forward alwaysInvestigateStep idResearch
          ("https://github.com/u") ("u") ("U")).lead_quality = some ("weak_fit")
        ∨ (LeadClassifierPipeline.forward alwaysInvestigateStep idResearch
          ("https://github.com/u") ("u") ("U")).lead_quality = some ("not_a_fit")) := by
  refine ⟨rfl, rfl, ?_⟩
  intro h
  rcases h with h | h | h <;> exact absurd h (by decide)

/-- C1 amended: on a run that reaches the terminal forced classification
(budget exhausted or early break after a research failure), the evolver
pipeline substitutes the policy default not_a_fit for a null label, so its
lead quality is always one of the three labels; the classifier pipeline
instead substitutes the literal string None, so its lead quality is one of the
three labels or the string None — in both controllers never a null value. -/
theorem C1_terminal_default_amended :
    (∀ (step : Nat → String → Bool → StepOut)
        (research : Nat → String → Blackboard → Option Blackboard)
        (lead_url lead_username lead_name : String),
      (∀ i s f, labelOk ((step i s f).lead_quality)) →
      (LeadClassifierPipeline.forward step research lead_url lead_username lead_name).forced_fired
          = true →
      ∃ q, (LeadClassifierPipeline.forward step research lead_url lead_username lead_name).lead_quality
            = some q
        ∧ (q = "strong_fit" ∨ q = "weak_fit" ∨ q = "not_a_fit" ∨ q = "None"))
    ∧ (∀ (step : Nat → String → StepOut)
        (research : Nat → String → String → ResearchOut)
        (lead_name lead_url initial_context : String),
      (∀ i s, labelOk ((step i s).lead_quality)) →
      (LeadEvolverPipeline.forward step research lead_name lead_url initial_context).forced_fired
          = true →
      ∃ q, (LeadEvolverPipeline.forward step research lead_name lead_url initial_context).lead_quality
            = some q
        ∧ (q = "strong_fit" ∨ q = "weak_fit" ∨ q = "not_a_fit")) := by
  constructor
  · intro step research lead_url lead_username lead_name hlab hforced
    unfold LeadClassifierPipeline.forward at hforced ⊢
    dsimp only at hforced ⊢
    cases hres0 : research 0
        (LeadClassifierPipeline.initial_goal lead_url lead_username lead_name)
        { page_findings := "", research_findings := "" } with
    | some bb2 =>
      rw [hres0] at hforced
      obtain ⟨i, s, hq⟩ := classifierLoop_forced_label step research
        LeadClassifierPipeline.MAX_INVESTIGATION_ROUNDS bb2 1 0 1 hforced
      exact ⟨_, hq, pyOrStr_label_none _ (hlab i s true)⟩
    | none =>
      rw [hres0] at hforced
      obtain ⟨i, s, hq⟩ := classifierLoop_forced_label step research
        LeadClassifierPipeline.MAX_INVESTIGATION_ROUNDS
        { page_findings := "", research_findings := "" } 0 0 1 hforced
      exact ⟨_, hq, pyOrStr_label_none _ (hlab i s true)⟩
  · intro step research lead_name lead_url initial_context hlab hforced
    unfold LeadEvolverPipeline.forward at hforced ⊢
    dsimp only at hforced ⊢
    obtain ⟨i, s, hq⟩ := evolverLoop_forced_label step research
      LeadEvolverPipeline.MAX_INVESTIGATION_ROUNDS _ _ 1 0 1 hforced
    exact ⟨_, hq, pyOrStr_label_nf _ (hlab i s)⟩

/-- C1 witness: the amended statement applied to both pipelines at concrete
stub steps whose labels are always null; the classifier pipeline yields the
string None, the evolver pipeline yields not_a_fit. -/
theorem C1_witness :
    (∃ q, (LeadClassifierPipeline.forward alwaysInvestigateStep idResearch
            ("https://github.com/u") ("u") ("U")).lead_quality = some q
      ∧ (q = "strong_fit" ∨ q = "weak_fit" ∨ q = "not_a_fit" ∨ q = "None"))
    ∧ (∃ q, (LeadEvolverPipeline.forward alwaysInvestigateStepE idResearchE
            ("U") ("https://github.com/u") ("")).lead_quality = some q
      ∧ (q = "strong_fit" ∨ q = "weak_fit" ∨ q = "not_a_fit")) :=
  ⟨C1_terminal_default_amended.1 alwaysInvestigateStep idResearch
      ("https://github.com/u") ("u") ("U") (fun _ _ _ => Or.inl rfl) rfl,
   C1_terminal_default_amended.2 alwaysInvestigateStepE idResearchE
      ("U") ("https://github.com/u") ("") (fun _ _ => Or.inl rfl) rfl⟩

/-- C2: under any classification-step stub that always returns a non-final
verdict with a non-empty research goal and any research-step stub that always
succeeds, the classifier-pipeline controller terminates (it is a total
function of its oracles) within MAX_INVESTIGATION_ROUNDS plus one
classification calls and its returned lead quality is a non-null string, the
forced-final fallback having fired. -/
theorem C2_round_budget_termination
    (step : Nat → String → Bool → StepOut)
    (research : Nat → String → Blackboard → Option Blackboard)
    (lead_url lead_username lead_name : String)
    (hfin : ∀ i s f, (step i s f).is_final = false)
    (hfur : ∀ i s f, ∃ g, (step i s f).further_investigation = some g ∧ g ≠ "")
    (hres : ∀ j g b, ∃ b2, research j g b = some b2) :
    (LeadClassifierPipeline.forward step research lead_url lead_username lead_name).classifier_calls
        ≤ LeadClassifierPipeline.MAX_INVESTIGATION_ROUNDS + 1
    ∧ (LeadClassifierPipeline.forward step research lead_url lead_username lead_name).lead_quality
        ≠ none
    ∧ (LeadClassifierPipeline.forward step research lead_url lead_username lead_name).forced_fired
        = true := by
  unfold LeadClassifierPipeline.forward
  dsimp only
  cases hres0 : research 0
      (LeadClassifierPipeline.initial_goal lead_url lead_username lead_name)
      { page_findings := "", research_findings := "" } with
  | some bb2 =>
    have h := classifierLoop_stub_run step research hfin hfur hres
      LeadClassifierPipeline.MAX_INVESTIGATION_ROUNDS bb2 1 0 1
    have h1 : (LeadClassifierPipeline.loop step research
        LeadClassifierPipeline.MAX_INVESTIGATION_ROUNDS bb2 1 0 1).classifier_calls
        ≤ LeadClassifierPipeline.MAX_INVESTIGATION_ROUNDS + 1 := by
      rw [h.1]; omega
    exact ⟨h1, h.2.2, h.2.1⟩
  | none =>
    have h := classifierLoop_stub_run step research hfin hfur hres
      LeadClassifierPipeline.MAX_INVESTIGATION_ROUNDS
      { page_findings := "", research_findings := "" } 0 0 1
    have h1 : (LeadClassifierPipeline.loop step research
        LeadClassifierPipeline.MAX_INVESTIGATION_ROUNDS
        { page_findings := "", research_findings := "" } 0 0 1).classifier_calls
        ≤ LeadClassifierPipeline.MAX_INVESTIGATION_ROUNDS + 1 := by
      rw [h.1]; omega
    exact ⟨h1, h.2.2, h.2.1⟩

/-- C2 witness: the round-budget bound at the concrete always-investigate
stubs, with all three stub hypotheses discharged. -/
theorem C2_witness :
    (LeadClassifierPipeline.forward alwaysInvestigateStep idResearch
        ("https://github.com/u2") ("u2") ("U2")).classifier_calls
      ≤ LeadClassifierPipeline.MAX_INVESTIGATION_ROUNDS + 1
    ∧ (LeadClassifierPipeline.forward alwaysInvestigateStep idResearch
        ("https://github.com/u2") ("u2") ("U2")).lead_quality ≠ none
    ∧ (LeadClassifierPipeline.forward alwaysInvestigateStep idResearch
        ("https://github.com/u2") ("u2") ("U2")).forced_fired = true :=
  C2_round_budget_termination alwaysInvestigateStep idResearch
    ("https://github.com/u2") ("u2") ("U2")
    (fun _ _ _ => rfl)
    (fun _ _ _ => ⟨"Investigate the GitHub repositories", rfl, by decide⟩)
    (fun _ _ b => ⟨b, rfl⟩)
